import Mathlib

/-!
Verification development for the hailo-detection-pipelines repository.

The repository contains two Python scripts:
  * `detection_tiling_pipeline.py` (class `TilingResolutionPreservingPipeline`)
  * `detection_preserve_resolution_pipeline.py` (class `ResolutionPreservingPipeline`)

Both build a GStreamer pipeline description string, validate paths and
parameters first, then run a GLib main loop reacting to bus messages.  The
definitions below are a shallow embedding of that code: paths are lists of
components, the filesystem is a record of existing files and directories,
GStreamer elements are a structured inductive mirroring the assembled
pipeline string, and the bus-message handler and lifecycle are explicit
functions.  Python floats are modelled as rationals (the validated
comparisons involve no rounding), Python ints as `Int`.
-/

/-- Paths are modelled as lists of components; `Path(p).parent` is `dropLast`,
and a single-component path has parent `Path('.')`, modelled as `[]`. -/
abbrev FsPath := List String

/-- Filesystem model: the set of existing regular files and of existing
directories, each as a list of paths. -/
structure FS where
  files : List FsPath
  dirs : List FsPath
deriving DecidableEq

/-- Python `Path(p).exists()`: true when `p` is an existing file or an
existing directory. -/
def pathExists (fs : FS) (p : FsPath) : Prop :=
  p ∈ fs.files ∨ p ∈ fs.dirs

instance (fs : FS) (p : FsPath) : Decidable (pathExists fs p) := by
  unfold pathExists; infer_instance

/-- One step of `mkdir(exist_ok=True)`: create the directory unless it is
already present. -/
def addDir (fs : FS) (d : FsPath) : FS :=
  if d ∈ fs.dirs then fs else { fs with dirs := fs.dirs ++ [d] }

/-- All non-empty prefixes of a path, shortest first: the chain of
directories `mkdir(parents=True)` creates. -/
def ancestors (d : FsPath) : List FsPath :=
  (List.range d.length).map (fun i => d.take (i + 1))

/-- Python `Path(d).mkdir(parents=True, exist_ok=True)`: create every
missing ancestor of `d`, then `d` itself. -/
def mkdirParents (fs : FS) (d : FsPath) : FS :=
  (ancestors d).foldl addDir fs

/-- File-path arguments shared by both pipelines. -/
structure IOPaths where
  input : FsPath
  output : FsPath
  hef : FsPath
  postprocess_so : FsPath
deriving DecidableEq

/-- The `FileNotFoundError` cases raised by `_validate_paths`. -/
inductive PathError where
  | inputNotFound
  | hefNotFound
  | soNotFound
deriving DecidableEq

/-- Embedding of `_validate_paths` (identical in both scripts): check that
the input, HEF and postprocess files exist, raising `FileNotFoundError` on
the first missing one, then create the output directory (with parents,
`exist_ok=True`) unless the output path's parent is `Path('.')`.  Returns
the filesystem after the side effect. -/
def validate_paths (fs : FS) (p : IOPaths) : Except PathError FS :=
  if ¬ pathExists fs p.input then Except.error PathError.inputNotFound
  else if ¬ pathExists fs p.hef then Except.error PathError.hefNotFound
  else if ¬ pathExists fs p.postprocess_so then Except.error PathError.soNotFound
  else
    if p.output.dropLast = [] then Except.ok fs
    else Except.ok (mkdirParents fs p.output.dropLast)

/-- Parsed arguments of `detection_tiling_pipeline.py` (`parse_args`). -/
structure TilingArgs where
  input : FsPath
  output : FsPath
  hef : FsPath
  postprocess_so : FsPath
  tiles_x : Int
  tiles_y : Int
  overlap_x : Rat
  overlap_y : Rat
  tiling_mode : Int
  tile_width : Int
  tile_height : Int
  iou_threshold : Rat
  border_threshold : Rat
  remove_large_landscape : Bool
  bitrate : Int
  debug : Bool
deriving DecidableEq

/-- The path fields of a tiling argument record. -/
def TilingArgs.paths (a : TilingArgs) : IOPaths :=
  ⟨a.input, a.output, a.hef, a.postprocess_so⟩

/-- The `ValueError` cases raised by `_validate_parameters`, one per
violated constraint, carrying the offending value. -/
inductive ValidationError where
  | tilesXRange (got : Int)
  | tilesYRange (got : Int)
  | overlapXRange (got : Rat)
  | overlapYRange (got : Rat)
  | tilingModeEnum (got : Int)
  | iouThresholdRange (got : Rat)
  | borderThresholdRange (got : Rat)
deriving DecidableEq

/-- Embedding of `TilingResolutionPreservingPipeline._validate_parameters`:
the chain of range checks in source order, raising `ValueError` at the
first failing check. -/
def validate_parameters (a : TilingArgs) : Except ValidationError Unit :=
  if ¬ (1 ≤ a.tiles_x ∧ a.tiles_x ≤ 20) then
    Except.error (ValidationError.tilesXRange a.tiles_x)
  else if ¬ (1 ≤ a.tiles_y ∧ a.tiles_y ≤ 20) then
    Except.error (ValidationError.tilesYRange a.tiles_y)
  else if ¬ (0 ≤ a.overlap_x ∧ a.overlap_x ≤ 1) then
    Except.error (ValidationError.overlapXRange a.overlap_x)
  else if ¬ (0 ≤ a.overlap_y ∧ a.overlap_y ≤ 1) then
    Except.error (ValidationError.overlapYRange a.overlap_y)
  else if ¬ (a.tiling_mode = 0 ∨ a.tiling_mode = 1) then
    Except.error (ValidationError.tilingModeEnum a.tiling_mode)
  else if ¬ (0 ≤ a.iou_threshold ∧ a.iou_threshold ≤ 1) then
    Except.error (ValidationError.iouThresholdRange a.iou_threshold)
  else if ¬ (0 ≤ a.border_threshold ∧ a.border_threshold ≤ 1) then
    Except.error (ValidationError.borderThresholdRange a.border_threshold)
  else Except.ok ()

/-- All constraints of `_validate_parameters` violated by `a`, in source
check order (used to state what a failure report that enumerates every
violation would have to contain). -/
def violatedConstraints (a : TilingArgs) : List ValidationError :=
  (if ¬ (1 ≤ a.tiles_x ∧ a.tiles_x ≤ 20) then [ValidationError.tilesXRange a.tiles_x] else []) ++
  (if ¬ (1 ≤ a.tiles_y ∧ a.tiles_y ≤ 20) then [ValidationError.tilesYRange a.tiles_y] else []) ++
  (if ¬ (0 ≤ a.overlap_x ∧ a.overlap_x ≤ 1) then [ValidationError.overlapXRange a.overlap_x] else []) ++
  (if ¬ (0 ≤ a.overlap_y ∧ a.overlap_y ≤ 1) then [ValidationError.overlapYRange a.overlap_y] else []) ++
  (if ¬ (a.tiling_mode = 0 ∨ a.tiling_mode = 1) then [ValidationError.tilingModeEnum a.tiling_mode] else []) ++
  (if ¬ (0 ≤ a.iou_threshold ∧ a.iou_threshold ≤ 1) then [ValidationError.iouThresholdRange a.iou_threshold] else []) ++
  (if ¬ (0 ≤ a.border_threshold ∧ a.border_threshold ≤ 1) then [ValidationError.borderThresholdRange a.border_threshold] else [])

/-- The constraint violations actually reported by a validation result:
the single raised error, or nothing on acceptance. -/
def reportedErrors (r : Except ValidationError Unit) : List ValidationError :=
  match r with
  | Except.ok _ => []
  | Except.error e => [e]

/-- Parsed arguments of `detection_preserve_resolution_pipeline.py`. -/
structure ResolutionArgs where
  input : FsPath
  output : FsPath
  hef : FsPath
  postprocess_so : FsPath
  inference_width : Int
  inference_height : Int
  bitrate : Int
  debug : Bool
deriving DecidableEq

/-- The path fields of a resolution-pipeline argument record. -/
def ResolutionArgs.paths (a : ResolutionArgs) : IOPaths :=
  ⟨a.input, a.output, a.hef, a.postprocess_so⟩

/-- How a started main loop terminates: end-of-stream, a bus error (both
quit the loop from `on_message`), or a `KeyboardInterrupt`. -/
inductive Termination where
  | eos
  | err
  | interrupted
deriving DecidableEq

/-- Nondeterministic outcomes of the external GStreamer engine during one
invocation: whether `Gst.parse_launch` succeeds, whether
`set_state(PLAYING)` returns something other than `FAILURE`, and how the
main loop terminates if reached. -/
structure GstEnv where
  parse_launch_ok : Bool
  start_ok : Bool
  termination : Termination
deriving DecidableEq

/-- Exit code of the `run` method (identical control flow in both
classes): `1` when pipeline construction fails, `1` when the pipeline
cannot reach PLAYING, otherwise the loop runs and `0` is returned after
the `finally` block, whichever way the loop terminated. -/
def run_exit (env : GstEnv) : Int :=
  if env.parse_launch_ok = false then 1
  else if env.start_ok = false then 1
  else 0

/-- Errors raised by `TilingResolutionPreservingPipeline.__init__`. -/
inductive InitError where
  | path (e : PathError)
  | param (e : ValidationError)
deriving DecidableEq

/-- Embedding of `TilingResolutionPreservingPipeline.__init__`: it calls
`_validate_paths` first (creating the output directory) and
`_validate_parameters` second.  Returns the filesystem after any side
effect together with the raised error, if any. -/
def init_pipeline (fs : FS) (a : TilingArgs) : FS × Option InitError :=
  match validate_paths fs a.paths with
  | Except.error e => (fs, some (InitError.path e))
  | Except.ok fs' =>
    match validate_parameters a with
    | Except.error e => (fs', some (InitError.param e))
    | Except.ok _ => (fs', none)

/-- Embedding of `main` in `detection_tiling_pipeline.py`: any
`FileNotFoundError` or `ValueError` from construction, and any unexpected
exception, yields exit code 1; otherwise the exit code is `run`'s return
value.  `unexpected` abstracts "some step raised an unforeseen
exception". -/
def tiling_main (fs : FS) (env : GstEnv) (unexpected : Bool) (a : TilingArgs) : FS × Int :=
  if unexpected then (fs, 1)
  else
    match init_pipeline fs a with
    | (fs', some _) => (fs', 1)
    | (fs', none) => (fs', run_exit env)

/-- Embedding of `main` in `detection_preserve_resolution_pipeline.py`:
as `tiling_main` but the constructor only validates paths. -/
def resolution_main (fs : FS) (env : GstEnv) (unexpected : Bool) (a : ResolutionArgs) : FS × Int :=
  if unexpected then (fs, 1)
  else
    match validate_paths fs a.paths with
    | Except.error _ => (fs, 1)
    | Except.ok fs' => (fs', run_exit env)

/-- Observable actions of `run` once the main loop has been entered, in
the order the code performs them. -/
inductive RunEvent where
  | printInterruptedMsg
  | teardown
  | printOutputSaved
  | printFrameCount (n : Nat)
  | printTilesPerFrame (n : Int)
deriving DecidableEq

/-- Trace of `TilingResolutionPreservingPipeline.run` from the moment
`loop.run()` returns or is interrupted: the `except KeyboardInterrupt`
handler prints a message, and the `finally` block always sets the
pipeline to NULL (teardown) and reports the output path, the final frame
counter and the tiles-per-frame product, once each. -/
def tiling_run_termination (frame_count : Nat) (tiles_total : Int) (t : Termination) : List RunEvent :=
  (match t with
   | Termination.interrupted => [RunEvent.printInterruptedMsg]
   | _ => []) ++
  [RunEvent.teardown, RunEvent.printOutputSaved,
   RunEvent.printFrameCount frame_count, RunEvent.printTilesPerFrame tiles_total]

/-- Trace of `ResolutionPreservingPipeline.run` from the moment
`loop.run()` returns or is interrupted: same `finally` block without the
tiles-per-frame report. -/
def resolution_run_termination (frame_count : Nat) (t : Termination) : List RunEvent :=
  (match t with
   | Termination.interrupted => [RunEvent.printInterruptedMsg]
   | _ => []) ++
  [RunEvent.teardown, RunEvent.printOutputSaved, RunEvent.printFrameCount frame_count]

/-- NMS score threshold constant of the resolution pipeline. -/
def NMS_SCORE_THRESHOLD : Rat := 0.3

/-- NMS IOU threshold constant of the resolution pipeline. -/
def NMS_IOU_THRESHOLD : Rat := 0.45

/-- Module-level default of `REMOVE_LARGE_LANDSCAPE` in
`detection_tiling_pipeline.py`. -/
def REMOVE_LARGE_LANDSCAPE : Bool := true

/-- GStreamer elements appearing in the two assembled pipeline strings,
with the properties the strings set.  `queue` carries `leaky` (`false`
for `leaky=no`), `max-size-buffers`, `max-size-bytes` and
`max-size-time`. -/
inductive GstElem where
  | filesrc (location : FsPath)
  | qtdemux
  | h264parse
  | avdec_h264
  | videoconvert
  | caps_rgb
  | hailotilecropper (tiles_x tiles_y : Int) (overlap_x overlap_y : Rat) (tiling_mode : Int)
  | hailotileaggregator (flatten : Bool) (iou border : Rat) (remove_large_landscape : Bool)
  | queue (leaky : Bool) (max_size_buffers max_size_bytes max_size_time : Nat)
  | videoscale
  | caps_size (w h : Int)
  | hailonet (hef : FsPath) (is_active : Bool)
  | hailonet_nms (hef : FsPath) (is_active : Bool) (score iou : Rat)
  | hailofilter (so : FsPath) (qos : Bool)
  | hailooverlay
  | x264enc (bitrate : Int)
  | mp4mux
  | filesink (location : FsPath)
  | tee
  | hailomuxer
deriving DecidableEq

/-- Embedding of `TilingResolutionPreservingPipeline.build_pipeline`: the
elements of the assembled pipeline string, in string order (source, the
cropper and aggregator declarations, the `src_0` passthrough branch, the
`src_1` tile branch, and the aggregated output branch). -/
def TilingResolutionPreservingPipeline.build_pipeline (a : TilingArgs) : List GstElem :=
  [GstElem.filesrc a.input,
   GstElem.qtdemux,
   GstElem.h264parse,
   GstElem.avdec_h264,
   GstElem.videoconvert,
   GstElem.caps_rgb,
   GstElem.hailotilecropper a.tiles_x a.tiles_y a.overlap_x a.overlap_y a.tiling_mode,
   GstElem.hailotileaggregator true a.iou_threshold a.border_threshold a.remove_large_landscape,
   GstElem.queue false 30 0 0,
   GstElem.queue false 30 0 0,
   GstElem.videoscale,
   GstElem.caps_size a.tile_width a.tile_height,
   GstElem.queue false 30 0 0,
   GstElem.hailonet a.hef true,
   GstElem.queue false 30 0 0,
   GstElem.hailofilter a.postprocess_so false,
   GstElem.queue false 30 0 0,
   GstElem.queue false 30 0 0,
   GstElem.hailooverlay,
   GstElem.queue false 30 0 0,
   GstElem.videoconvert,
   GstElem.x264enc a.bitrate,
   GstElem.h264parse,
   GstElem.mp4mux,
   GstElem.filesink a.output]

/-- Embedding of `ResolutionPreservingPipeline.build_pipeline`: the
elements of the assembled pipeline string, in string order (source, tee
and muxer declarations, passthrough branch, inference branch, merged
output branch). -/
def ResolutionPreservingPipeline.build_pipeline (a : ResolutionArgs) : List GstElem :=
  [GstElem.filesrc a.input,
   GstElem.qtdemux,
   GstElem.h264parse,
   GstElem.avdec_h264,
   GstElem.videoconvert,
   GstElem.tee,
   GstElem.hailomuxer,
   GstElem.queue false 30 0 0,
   GstElem.videoscale,
   GstElem.caps_size a.inference_width a.inference_height,
   GstElem.queue false 30 0 0,
   GstElem.hailonet_nms a.hef true NMS_SCORE_THRESHOLD NMS_IOU_THRESHOLD,
   GstElem.queue false 30 0 0,
   GstElem.hailofilter a.postprocess_so false,
   GstElem.queue false 30 0 0,
   GstElem.hailooverlay,
   GstElem.queue false 30 0 0,
   GstElem.videoconvert,
   GstElem.x264enc a.bitrate,
   GstElem.h264parse,
   GstElem.mp4mux,
   GstElem.filesink a.output]

/-- Check that every `queue` element in a pipeline description is
non-leaky (`leaky=no`, i.e. non-discarding) and bounded by the fixed
buffered-item count 30 (`max-size-buffers=30`). -/
def queues_ok (es : List GstElem) : Bool :=
  es.all fun e =>
    match e with
    | GstElem.queue leaky mb _ _ => (!leaky) && (mb == 30)
    | _ => true

/-- The `remove-large-landscape` property of the first
`hailotileaggregator` element of a pipeline description. -/
def aggregator_remove_large_landscape : List GstElem → Option Bool
  | [] => none
  | GstElem.hailotileaggregator _ _ _ r :: _ => some r
  | _ :: rest => aggregator_remove_large_landscape rest

/-- Embedding of an argparse `store_true` argument: the parsed value is
`True` when the flag is present, and the declared default otherwise.  For
`--remove-large-landscape` the default is `REMOVE_LARGE_LANDSCAPE`. -/
def parse_remove_large_landscape (flag_present : Bool) : Bool :=
  if flag_present then true else REMOVE_LARGE_LANDSCAPE

/-- Python `str(b).lower()` on a bool, as interpolated into the pipeline
string for `remove-large-landscape`. -/
def py_bool_lower (b : Bool) : String :=
  if b then "true" else "false"

/-- Bus messages handled by `on_message` (identical handler in both
scripts).  `error` and `warning` carry the parsed text and an optional
debug detail string; `state_changed` records whether the message source
is the pipeline itself. -/
inductive GstMessage where
  | error (text : String) (dbg : Option String)
  | eos
  | warning (text : String) (dbg : Option String)
  | state_changed (src_is_pipeline : Bool)
  | stream_status
deriving DecidableEq

/-- Run state touched by the bus-message handler: the shared frame
counter and whether `loop.quit()` has been requested.  (`self.loop` is
always set before messages are dispatched, since the signal watch is
serviced by the very loop created just before `loop.run()`.) -/
structure HandlerState where
  frame_count : Nat
  loop_quit : Bool
deriving DecidableEq

/-- Embedding of `on_message` (identical in both scripts): errors and
end-of-stream print and quit the loop; warnings print (plus the detail
under `--debug`) and change nothing; state-changed and stream-status
messages print only under `--debug` and change nothing.  Returns the new
state and the lines printed. -/
def on_message (debug : Bool) (st : HandlerState) (m : GstMessage) : HandlerState × List String :=
  match m with
  | GstMessage.error text dbg =>
      (⟨st.frame_count, true⟩,
       ["[ERROR] " ++ text] ++
         (match dbg with
          | some d => if debug then ["[DEBUG] " ++ d] else []
          | none => []))
  | GstMessage.eos =>
      (⟨st.frame_count, true⟩, ["[EOS] Processing complete."])
  | GstMessage.warning text dbg =>
      (st,
       ["[WARNING] " ++ text] ++
         (match dbg with
          | some d => if debug then ["[DEBUG] " ++ d] else []
          | none => []))
  | GstMessage.state_changed src_is_pipeline =>
      (st, if src_is_pipeline && debug then ["[STATE]"] else [])
  | GstMessage.stream_status =>
      (st, if debug then ["[STREAM_STATUS]"] else [])

/-- Whether a bus message quits the main loop in `on_message`: only
errors and end-of-stream do. -/
def ends_run : GstMessage → Bool
  | GstMessage.error _ _ => true
  | GstMessage.eos => true
  | _ => false

/-- Tokens arriving at the tile aggregator for a given frame identity:
the whole-frame token from `cropper.src_0` or one indexed tile token from
the inference branch. -/
inductive TileToken where
  | whole (frame : Nat)
  | tile (frame : Nat) (idx : Nat)
deriving DecidableEq

/-- The frame identity a token belongs to. -/
def token_frame : TileToken → Nat
  | TileToken.whole f => f
  | TileToken.tile f _ => f

/-- Whether the tokens `seen` so far contain everything the aggregator
waits for before merging frame `f`: the whole-frame token and all `n`
tile tokens (`n = tiles_x * tiles_y`). -/
def frame_complete (n : Nat) (seen : List TileToken) (f : Nat) : Bool :=
  (1 ≤ seen.count (TileToken.whole f)) &&
  (List.range n).all (fun i => 1 ≤ seen.count (TileToken.tile f i))

/-- Modelled from the spec: the `hailotileaggregator` GStreamer element
is external to this repository (the script only instantiates and
configures it), so its merging behavior is taken from the spec's
contract: "for every original frame, it must wait until it has received
the whole-frame token and all tiles_x × tiles_y tile tokens bearing that
frame's identity ... The aggregator then emits exactly one merged frame
onward."  `aggregate_go` folds over the arriving token stream with the
already-seen tokens accumulated (most recent first) and emits a frame
identity exactly when the current token completes it. -/
def aggregate_go (n : Nat) (seen : List TileToken) : List TileToken → List Nat
  | [] => []
  | t :: rest =>
    let f := token_frame t
    if frame_complete n (t :: seen) f && ! frame_complete n seen f then
      f :: aggregate_go n (t :: seen) rest
    else
      aggregate_go n (t :: seen) rest

/-- Modelled from the spec: the frame identities the aggregator emits,
in order, when fed the token stream `s` with `n` tiles expected per
frame. -/
def aggregate (n : Nat) (s : List TileToken) : List Nat :=
  aggregate_go n [] s

/-- Embedding of `on_buffer_probe` in `detection_tiling_pipeline.py`: it
increments the frame counter once per buffer observed on the
aggregator's src pad. -/
def on_buffer_probe (frame_count : Nat) : Nat :=
  frame_count + 1

/-- Final value of the frame counter after the probe has fired once for
every buffer the aggregator emitted. -/
def final_frame_count (emitted : List Nat) : Nat :=
  emitted.foldl (fun c _ => on_buffer_probe c) 0

/-- A 10-frame input processed with `tiles_x = 2, tiles_y = 2`: for each
frame the aggregator receives the whole-frame token and the four tile
tokens. -/
def ten_frame_stream : List TileToken :=
  ((List.range 10).map fun f =>
    [TileToken.whole f, TileToken.tile f 0, TileToken.tile f 1,
     TileToken.tile f 2, TileToken.tile f 3]).flatten

/-- Concrete path set used for concrete evaluations. -/
def examplePaths : IOPaths :=
  ⟨["videos", "in.mp4"], ["out", "result.mp4"],
   ["models", "yolov11m.hef"], ["so", "post.so"]⟩

/-- Concrete filesystem in which the three required input files exist and
the output directory does not yet exist. -/
def exampleFS : FS :=
  ⟨[["videos", "in.mp4"], ["models", "yolov11m.hef"], ["so", "post.so"]],
   [["videos"], ["models"], ["so"]]⟩

/-- Concrete engine outcome where construction and startup succeed and
the stream ends normally. -/
def exampleEnv : GstEnv :=
  ⟨true, true, Termination.eos⟩

/-- Concrete tiling argument record with every parameter in range
(matching the script's defaults, with zero overlap). -/
def baseTilingArgs : TilingArgs :=
  { input := examplePaths.input
    output := examplePaths.output
    hef := examplePaths.hef
    postprocess_so := examplePaths.postprocess_so
    tiles_x := 2
    tiles_y := 2
    overlap_x := 0
    overlap_y := 0
    tiling_mode := 0
    tile_width := 640
    tile_height := 640
    iou_threshold := 0.3
    border_threshold := 0.1
    remove_large_landscape := true
    bitrate := 4000
    debug := false }

/-- Argument record violating two constraints at once: `tiles_x = 21`
and `tiles_y = 0`. -/
def c2BadArgs : TilingArgs :=
  { baseTilingArgs with tiles_x := 21, tiles_y := 0 }

/-- Argument record with valid paths but `tiles_x = 21` out of range. -/
def c10Args : TilingArgs :=
  { baseTilingArgs with tiles_x := 21 }

/-! Helper lemmas about the filesystem model. -/

theorem addDir_files (fs : FS) (d : FsPath) : (addDir fs d).files = fs.files := by
  unfold addDir
  split <;> rfl

theorem foldl_addDir_files (l : List FsPath) (fs : FS) :
    (l.foldl addDir fs).files = fs.files := by
  induction l generalizing fs with
  | nil => rfl
  | cons a l ih => simp [List.foldl, ih, addDir_files]

theorem mkdirParents_files (fs : FS) (d : FsPath) :
    (mkdirParents fs d).files = fs.files :=
  foldl_addDir_files _ _

theorem mem_dirs_addDir (fs : FS) (d x : FsPath) (h : x ∈ fs.dirs) :
    x ∈ (addDir fs d).dirs := by
  unfold addDir
  split
  · exact h
  · simp [h]

theorem self_mem_addDir (fs : FS) (d : FsPath) : d ∈ (addDir fs d).dirs := by
  unfold addDir
  split
  · assumption
  · simp

theorem addDir_of_mem (fs : FS) (d : FsPath) (h : d ∈ fs.dirs) : addDir fs d = fs := by
  unfold addDir
  simp [h]

theorem mem_dirs_foldl (l : List FsPath) (fs : FS) (x : FsPath) (h : x ∈ fs.dirs) :
    x ∈ (l.foldl addDir fs).dirs := by
  induction l generalizing fs with
  | nil => exact h
  | cons a l ih => exact ih _ (mem_dirs_addDir _ _ _ h)

theorem all_mem_foldl (l : List FsPath) (fs : FS) :
    ∀ x ∈ l, x ∈ (l.foldl addDir fs).dirs := by
  induction l generalizing fs with
  | nil => intro x hx; cases hx
  | cons a l ih =>
    intro x hx
    rcases List.mem_cons.mp hx with hx | hx
    · subst hx
      exact mem_dirs_foldl l _ x (self_mem_addDir fs x)
    · exact ih _ x hx

theorem foldl_addDir_of_all_mem (l : List FsPath) (fs : FS)
    (h : ∀ x ∈ l, x ∈ fs.dirs) : l.foldl addDir fs = fs := by
  induction l with
  | nil => rfl
  | cons a l ih =>
    have ha : addDir fs a = fs := addDir_of_mem fs a (h a (by simp))
    simp only [List.foldl, ha]
    exact ih fun x hx => h x (by simp [hx])

theorem mkdirParents_idem (fs : FS) (d : FsPath) :
    mkdirParents (mkdirParents fs d) d = mkdirParents fs d :=
  foldl_addDir_of_all_mem _ _ (all_mem_foldl _ _)

theorem pathExists_mkdirParents (fs : FS) (d p : FsPath) (h : pathExists fs p) :
    pathExists (mkdirParents fs d) p := by
  rcases h with h | h
  · left
    rw [mkdirParents_files]
    exact h
  · right
    exact mem_dirs_foldl _ _ _ h

theorem self_mem_mkdirParents (fs : FS) (d : FsPath) (hd : d ≠ []) :
    d ∈ (mkdirParents fs d).dirs := by
  apply all_mem_foldl
  unfold ancestors
  have hlen : 0 < d.length := List.length_pos.mpr hd
  refine List.mem_map.mpr ⟨d.length - 1, ?_, ?_⟩
  · simp [List.mem_range]
    omega
  · have : d.length - 1 + 1 = d.length := by omega
    rw [this, List.take_length]

/-! Helper lemmas about the spec-modelled tile aggregator. -/

theorem frame_complete_mono_cons (n : Nat) (t : TileToken) (l : List TileToken) (f : Nat)
    (h : frame_complete n l f = true) : frame_complete n (t :: l) f = true := by
  unfold frame_complete at h ⊢
  simp only [Bool.and_eq_true, decide_eq_true_eq, List.all_eq_true] at h ⊢
  obtain ⟨hw, ht⟩ := h
  constructor
  · have := List.count_le_count_cons (TileToken.whole f) t l
    omega
  · intro i hi
    have := List.count_le_count_cons (TileToken.tile f i) t l
    have := ht i hi
    omega

theorem frame_complete_mono_append (n : Nat) (l' l : List TileToken) (f : Nat)
    (h : frame_complete n l f = true) : frame_complete n (l' ++ l) f = true := by
  induction l' with
  | nil => exact h
  | cons t l' ih => exact frame_complete_mono_cons n t _ f ih

theorem frame_complete_cons_ne (n : Nat) (t : TileToken) (l : List TileToken) (f : Nat)
    (hf : token_frame t ≠ f) :
    frame_complete n (t :: l) f = frame_complete n l f := by
  have hw : t ≠ TileToken.whole f := by
    cases t <;> simp_all [token_frame]
  have ht : ∀ i : Nat, t ≠ TileToken.tile f i := by
    intro i
    cases t <;> simp_all [token_frame]
  unfold frame_complete
  simp [List.count_cons, hw, ht]

theorem frame_complete_nil (n : Nat) (f : Nat) : frame_complete n [] f = false := by
  simp [frame_complete]

theorem aggregate_go_count (n : Nat) (rest : List TileToken) :
    ∀ (seen : List TileToken) (f : Nat),
      (aggregate_go n seen rest).count f =
        if frame_complete n (rest.reverse ++ seen) f && ! frame_complete n seen f
        then 1 else 0 := by
  induction rest with
  | nil =>
    intro seen f
    simp [aggregate_go]
  | cons t rest ih =>
    intro seen f
    have hrev : (t :: rest).reverse ++ seen = rest.reverse ++ (t :: seen) := by
      simp
    rw [hrev]
    simp only [aggregate_go]
    split
    case isTrue hcond =>
      simp only [Bool.and_eq_true, Bool.not_eq_eq_eq_not, Bool.not_true] at hcond
      obtain ⟨hnew, hold⟩ := hcond
      by_cases hf : f = token_frame t
      · subst hf
        rw [List.count_cons_self, ih (t :: seen) (token_frame t)]
        simp [hnew, hold,
          frame_complete_mono_append n rest.reverse (t :: seen) (token_frame t) hnew]
      · rw [List.count_cons_of_ne hf, ih (t :: seen) f,
          frame_complete_cons_ne n t seen f (fun h => hf h.symm)]
    case isFalse hcond =>
      rw [ih (t :: seen) f]
      by_cases hf : f = token_frame t
      · subst hf
        cases hseen : frame_complete n seen (token_frame t)
        · cases hnew : frame_complete n (t :: seen) (token_frame t)
          · rfl
          · exact absurd (by rw [hnew, hseen]; rfl) hcond
        · have hnew : frame_complete n (t :: seen) (token_frame t) = true :=
            frame_complete_mono_cons n t seen (token_frame t) hseen
          rw [hnew]
      · rw [frame_complete_cons_ne n t seen f (fun h => hf h.symm)]

theorem frame_complete_congr (n : Nat) (l1 l2 : List TileToken) (f : Nat)
    (h : ∀ t, l1.count t = l2.count t) :
    frame_complete n l1 f = frame_complete n l2 f := by
  unfold frame_complete
  simp [h]

theorem aggregate_count (n : Nat) (s : List TileToken) (f : Nat) :
    (aggregate n s).count f = if frame_complete n s f then 1 else 0 := by
  unfold aggregate
  rw [aggregate_go_count]
  have h1 : frame_complete n (s.reverse ++ []) f = frame_complete n s f := by
    apply frame_complete_congr
    intro t
    simp
  rw [h1, frame_complete_nil]
  cases h : frame_complete n s f <;> simp [h]

theorem aggregate_go_append (n : Nat) (p q : List TileToken) :
    ∀ seen,
      aggregate_go n seen (p ++ q) =
        aggregate_go n seen p ++ aggregate_go n (p.reverse ++ seen) q := by
  induction p with
  | nil => intro seen; simp [aggregate_go]
  | cons t p ih =>
    intro seen
    have hrev : (t :: p).reverse ++ seen = p.reverse ++ (t :: seen) := by
      simp
    rw [hrev]
    simp only [List.cons_append, aggregate_go]
    split
    · simp [ih (t :: seen)]
    · exact ih (t :: seen)

/-! Claim theorems. -/

/-- C1: for every tiling-pipeline argument set, parameter validation
accepts if and only if `tiles_x` and `tiles_y` are integers in `[1,20]`,
`overlap_x` and `overlap_y` are reals in `[0,1]`, `tiling_mode` is 0 or
1, and `iou_threshold` and `border_threshold` are reals in `[0,1]`; in
particular `tiles_x = 21` is rejected with an invalid-parameter
(`ValueError`) result and `tiles_x = 20` is accepted. -/
theorem C1_parameter_validation :
    (∀ a : TilingArgs,
      validate_parameters a = Except.ok () ↔
        ((1 ≤ a.tiles_x ∧ a.tiles_x ≤ 20) ∧ (1 ≤ a.tiles_y ∧ a.tiles_y ≤ 20) ∧
         (0 ≤ a.overlap_x ∧ a.overlap_x ≤ 1) ∧ (0 ≤ a.overlap_y ∧ a.overlap_y ≤ 1) ∧
         (a.tiling_mode = 0 ∨ a.tiling_mode = 1) ∧
         (0 ≤ a.iou_threshold ∧ a.iou_threshold ≤ 1) ∧
         (0 ≤ a.border_threshold ∧ a.border_threshold ≤ 1))) ∧
    validate_parameters { baseTilingArgs with tiles_x := 21 } =
      Except.error (ValidationError.tilesXRange 21) ∧
    validate_parameters { baseTilingArgs with tiles_x := 20 } = Except.ok () := by
  refine ⟨fun a => ?_, by norm_num [validate_parameters, baseTilingArgs],
    by norm_num [validate_parameters, baseTilingArgs]⟩
  unfold validate_parameters
  split_ifs with h1 h2 h3 h4 h5 h6 h7 <;> simp_all

/-- C2, counterexample: with both `tiles_x = 21` and `tiles_y = 0` out of
range, the validator's failure result reports only the `tiles_x`
violation; the `tiles_y` violation is a violated constraint but is not
enumerated in the result, refuting the claim that every violated
constraint is reported. -/
theorem C2_counterexample :
    validate_parameters c2BadArgs = Except.error (ValidationError.tilesXRange 21) ∧
    ValidationError.tilesYRange 0 ∈ violatedConstraints c2BadArgs ∧
    ValidationError.tilesYRange 0 ∉ reportedErrors (validate_parameters c2BadArgs) := by
  refine ⟨rfl, ?_, ?_⟩ <;> decide

/-- C2, amended: the validator does not enumerate every violated
constraint; it raises on, and therefore reports exactly, the first
violated constraint in source check order (`tiles_x`, `tiles_y`,
`overlap_x`, `overlap_y`, `tiling_mode`, `iou_threshold`,
`border_threshold`), and reports nothing on acceptance. -/
theorem C2_first_violation_reported :
    ∀ a : TilingArgs,
      reportedErrors (validate_parameters a) = (violatedConstraints a).take 1 := by
  intro a
  unfold validate_parameters violatedConstraints
  split_ifs <;> simp [reportedErrors]

/-- C8: path validation is idempotent with respect to the output
directory.  For every filesystem in which the input, model and
postprocess files exist (in particular one where the output directory
already exists), validation succeeds, and running it a second time on
the resulting filesystem succeeds and leaves the filesystem exactly as
after the first run. -/
theorem C8_path_validation_idempotent (fs : FS) (p : IOPaths)
    (h1 : pathExists fs p.input) (h2 : pathExists fs p.hef)
    (h3 : pathExists fs p.postprocess_so) :
    ∃ fs', validate_paths fs p = Except.ok fs' ∧ validate_paths fs' p = Except.ok fs' := by
  unfold validate_paths
  by_cases hout : p.output.dropLast = []
  · exact ⟨fs, by simp [h1, h2, h3, hout], by simp [h1, h2, h3, hout]⟩
  · refine ⟨mkdirParents fs p.output.dropLast, by simp [h1, h2, h3, hout], ?_⟩
    simp [pathExists_mkdirParents _ _ _ h1, pathExists_mkdirParents _ _ _ h2,
      pathExists_mkdirParents _ _ _ h3, hout, mkdirParents_idem]

/-- C8 witness: a concrete filesystem holding the three input files, on
which path validation succeeds and is idempotent. -/
theorem C8_witness :
    ∃ fs', validate_paths exampleFS examplePaths = Except.ok fs' ∧
      validate_paths fs' examplePaths = Except.ok fs' :=
  C8_path_validation_idempotent exampleFS examplePaths
    (by decide) (by decide) (by decide)

/-- C10: in the tiling pipeline, `__init__` runs `_validate_paths`
(which creates the output directory) before `_validate_parameters`, so
for every argument set whose files exist but whose tiling or aggregation
parameters are rejected, the output directory ends up on disk even
though the invocation fails with exit code 1. -/
theorem C10_output_dir_created_before_param_failure
    (fs : FS) (env : GstEnv) (a : TilingArgs) (e : ValidationError)
    (h1 : pathExists fs a.input) (h2 : pathExists fs a.hef)
    (h3 : pathExists fs a.postprocess_so)
    (hout : a.output.dropLast ≠ [])
    (hbad : validate_parameters a = Except.error e) :
    a.output.dropLast ∈ (tiling_main fs env false a).1.dirs ∧
    (tiling_main fs env false a).2 = 1 := by
  have hvp : validate_paths fs a.paths =
      Except.ok (mkdirParents fs a.output.dropLast) := by
    unfold validate_paths
    simp [TilingArgs.paths, h1, h2, h3, hout]
  unfold tiling_main init_pipeline
  simp only [if_neg Bool.false_ne_true, hvp, hbad]
  exact ⟨self_mem_mkdirParents fs _ hout, by trivial⟩

/-- C10 witness: with the example filesystem and `tiles_x = 21`, the
output directory `out` is created although the run exits with code 1. -/
theorem C10_witness :
    c10Args.output.dropLast ∈ (tiling_main exampleFS exampleEnv false c10Args).1.dirs ∧
    (tiling_main exampleFS exampleEnv false c10Args).2 = 1 :=
  C10_output_dir_created_before_param_failure exampleFS exampleEnv c10Args
    (ValidationError.tilesXRange 21) (by decide) (by decide) (by decide)
    (by decide) rfl

/-- C3: for every invocation of either script, the process exit code is
0 or 1, and it is 0 exactly when no unexpected exception occurred, path
validation succeeded, (for the tiling script) parameter validation
succeeded, pipeline construction succeeded and the pipeline reached
PLAYING; every validation, construction, startup or unexpected failure
therefore exits with 1. -/
theorem C3_exit_codes :
    ∀ (fs : FS) (env : GstEnv) (u : Bool) (a : TilingArgs) (b : ResolutionArgs),
      ((tiling_main fs env u a).2 = 0 ∨ (tiling_main fs env u a).2 = 1) ∧
      ((resolution_main fs env u b).2 = 0 ∨ (resolution_main fs env u b).2 = 1) ∧
      ((tiling_main fs env u a).2 = 0 ↔
        u = false ∧ (∃ fs', validate_paths fs a.paths = Except.ok fs') ∧
        validate_parameters a = Except.ok () ∧
        env.parse_launch_ok = true ∧ env.start_ok = true) ∧
      ((resolution_main fs env u b).2 = 0 ↔
        u = false ∧ (∃ fs', validate_paths fs b.paths = Except.ok fs') ∧
        env.parse_launch_ok = true ∧ env.start_ok = true) := by
  intro fs env u a b
  obtain ⟨pl, st, t⟩ := env
  cases u
  case true => simp [tiling_main, resolution_main]
  case false =>
    rcases hva : validate_paths fs a.paths with e | fsa <;>
      rcases hvb : validate_paths fs b.paths with e' | fsb <;>
        rcases hvp : validate_parameters a with ep | u' <;>
          cases pl <;> cases st <;>
            simp [tiling_main, resolution_main, init_pipeline, run_exit, hva, hvb, hvp]

/-- C4 (spec-modelled aggregator): the aggregator emits a frame identity
exactly once when its whole-frame token and all `n = tiles_x * tiles_y`
tile tokens have arrived and never otherwise (first conjunct); what it
emits while consuming a prefix of the stream depends only on that prefix
(second conjunct), so nothing is emitted before the tokens have arrived;
and a 10-frame input at `tiles_x = 2, tiles_y = 2` yields exactly 10
merged frames, driving the `on_buffer_probe` frame counter to a final
value of 10. -/
theorem C4_aggregator_one_output_per_frame :
    (∀ (n : Nat) (s : List TileToken) (f : Nat),
       (aggregate n s).count f = if frame_complete n s f then 1 else 0) ∧
    (∀ (n : Nat) (p q : List TileToken),
       aggregate n (p ++ q) = aggregate n p ++ aggregate_go n p.reverse q) ∧
    (aggregate 4 ten_frame_stream).length = 10 ∧
    final_frame_count (aggregate 4 ten_frame_stream) = 10 := by
  refine ⟨aggregate_count, fun n p q => ?_, by decide, by decide⟩
  unfold aggregate
  rw [aggregate_go_append n p q []]
  simp

/-- C5: for every way a started run terminates (end-of-stream, bus
error, or `KeyboardInterrupt`), the `finally` block of `run` in each
script performs teardown (pipeline to NULL) exactly once and reports the
final frame counter, before control leaves `run` and the object is
discarded. -/
theorem C5_teardown_once_and_counter_reported :
    ∀ (fc : Nat) (tt : Int) (t : Termination),
      (tiling_run_termination fc tt t).count RunEvent.teardown = 1 ∧
      RunEvent.printFrameCount fc ∈ tiling_run_termination fc tt t ∧
      (resolution_run_termination fc t).count RunEvent.teardown = 1 ∧
      RunEvent.printFrameCount fc ∈ resolution_run_termination fc t := by
  intro fc tt t
  cases t <;>
    simp [tiling_run_termination, resolution_run_termination, List.count_cons]

/-- C6: in both graph descriptions, every queue element is declared
`leaky=no` (non-discarding: a full queue blocks its producer) and
bounded by the fixed count `max-size-buffers=30`, for every argument
set. -/
theorem C6_all_queues_bounded_nonleaky :
    ∀ (a : TilingArgs) (b : ResolutionArgs),
      queues_ok (TilingResolutionPreservingPipeline.build_pipeline a) = true ∧
      queues_ok (ResolutionPreservingPipeline.build_pipeline b) = true :=
  fun _ _ => ⟨rfl, rfl⟩

/-- C7: for every warning message delivered to `on_message`, the handler
logs the warning and leaves the state untouched; across all message
kinds the frame counter is never changed by the handler and the loop is
quit only by error or end-of-stream messages, so warnings never stop the
run or escalate. -/
theorem C7_warnings_logged_never_escalate :
    ∀ (debug : Bool) (st : HandlerState) (text : String) (dbg : Option String)
      (m : GstMessage),
      (on_message debug st (GstMessage.warning text dbg)).1 = st ∧
      "[WARNING] " ++ text ∈ (on_message debug st (GstMessage.warning text dbg)).2 ∧
      (on_message debug st m).1.loop_quit = (st.loop_quit || ends_run m) ∧
      (on_message debug st m).1.frame_count = st.frame_count := by
  intro debug st text dbg m
  refine ⟨rfl, by simp [on_message], ?_, ?_⟩
  · cases m <;> simp [on_message, ends_run]
  · cases m <;> rfl

/-- C9: because `--remove-large-landscape` is a `store_true` flag whose
default is already `True`, the parsed value is `True` whether or not the
flag is passed, the string interpolated into the pipeline is `"true"`,
and the aggregator element of the built graph always carries
`remove-large-landscape=true`. -/
theorem C9_remove_large_landscape_unfalsifiable :
    ∀ (flag_present : Bool) (a : TilingArgs),
      parse_remove_large_landscape flag_present = true ∧
      py_bool_lower (parse_remove_large_landscape flag_present) = "true" ∧
      aggregator_remove_large_landscape
        (TilingResolutionPreservingPipeline.build_pipeline
          { a with remove_large_landscape := parse_remove_large_landscape flag_present }) =
        some true := by
  intro p a
  cases p <;> exact ⟨rfl, rfl, rfl⟩
